import Mathlib

/-!
# Verification of `license-check/generate-reports.py`

Shallow embedding of the report-generation script.  The script reads an
optional JSON file (`nuget-licenses.json`) and an optional CSV file
(`rush-dependencies.csv`) from the fixed directory `./license-reports`,
and writes an Excel workbook `license-report.xlsx` with up to two sheets.

The script's own logic is embedded directly.  The third-party library
calls it makes (`json.load`, `pandas.read_csv`, `pandas.json_normalize`,
`DataFrame.to_excel`, `pandas.ExcelWriter` with the default `openpyxl`
engine) are modelled at the level of their observable behaviour:

* `json.load` / `pd.read_csv` on a missing file raise `FileNotFoundError`
  (the script catches this); on a present but unparseable file they raise
  an error the script does not catch.  A file inside a non-existent
  directory behaves like a missing file.
* `pd.read_csv` on a parseable CSV yields a data frame whose columns are
  the header fields and whose rows are the data rows (a parsed CSV always
  has at least one column).  `DataFrame.empty` is true iff the frame has
  no rows or no columns.  Cell values are modelled as strings; pandas'
  numeric type inference is irrelevant to the properties proved here.
* `pd.json_normalize` accepts a dict (one record) or a list of dicts and
  flattens nested dicts into dotted column names (`nested_to_record` with
  separator `"."`); on any other input — a string, number, boolean, or a
  list containing a non-dict — it raises an unhandled error.  A key absent
  from some record yields a missing value (modelled as `Json.null`).
* `pd.ExcelWriter(path)` opens the output file handle at construction, so
  a missing output directory raises `FileNotFoundError` there, uncaught.
* Closing the writer (on leaving the `with` block) saves the workbook;
  `openpyxl` refuses to save a workbook with no visible sheet, raising
  `IndexError: At least one sheet must be visible`.  The saved workbook
  records the sheets in the order written plus volatile metadata
  (creation timestamp), modelled by the `createdAt` field.

JSON numbers are modelled as integers; no property proved here depends on
numeric cell values.  A run's outcome is `Except`: `.ok` corresponds to
the process printing the confirmation line and exiting with status 0,
`.error` to an unhandled exception (non-zero exit, no confirmation, and
no workbook saved by this run).
-/

/-- JSON values, as produced by `json.load`. -/
inductive Json where
  | null : Json
  | bool (b : Bool) : Json
  | num (n : Int) : Json
  | str (s : String) : Json
  | arr (xs : List Json) : Json
  | obj (kvs : List (String × Json)) : Json

/-- Python truthiness of a parsed JSON value (`if nuget_data:`). -/
def Json.truthy : Json → Bool
  | .null => false
  | .bool b => b
  | .num n => n != 0
  | .str s => s ≠ ""
  | .arr xs => !xs.isEmpty
  | .obj kvs => !kvs.isEmpty

/-- Is this value a JSON object (a Python dict)? -/
def Json.isObj : Json → Bool
  | .obj _ => true
  | _ => false

/-- The entries of a JSON object when it is one. -/
def asObjEntries : Json → Option (List (String × Json))
  | .obj kvs => some kvs
  | _ => none

/-- The entries of every element of a list of JSON objects; `none` as soon
as one element is not an object (the iteration inside `json_normalize`
raises at the first non-dict element). -/
def allObjEntries : List Json → Option (List (List (String × Json)))
  | [] => some []
  | x :: xs =>
    match asObjEntries x, allObjEntries xs with
    | some r, some rs => some (r :: rs)
    | _, _ => none

/-- State of one input file as the script finds it:  missing, present but
unparseable, or present with parsed content `a`. -/
inductive FileContent (α : Type) where
  | absent : FileContent α
  | malformed : FileContent α
  | parsed (a : α) : FileContent α

/-- A parsed CSV file: one header row and the data rows. -/
structure Csv where
  header : List String
  rows : List (List String)

/-- An in-memory pandas data frame: named columns and data rows
(no row index; `to_excel` is called with `index=False`). -/
structure DataFrame where
  columns : List String
  rows : List (List Json)

/-- `DataFrame.empty`: true iff either axis has length 0. -/
def DataFrame.isEmpty (df : DataFrame) : Bool :=
  df.rows.isEmpty || df.columns.isEmpty

/-- The data frame produced by `pd.read_csv` on a parseable CSV. -/
def csvToDataFrame (c : Csv) : DataFrame :=
  ⟨c.header, c.rows.map (fun r => r.map Json.str)⟩

/-- The filesystem state a run sees: whether `./license-reports` exists,
and the two input files (relevant only when the directory exists). -/
structure Env where
  outputDirExists : Bool
  nugetFile : FileContent Json
  rushFile : FileContent Csv

/-- One step of `pandas.json_normalize`'s `nested_to_record` below the top
level: every key is re-emitted under its dotted name, nested dicts are
flattened in place. -/
def flattenSub (pre : String) : List (String × Json) → List (String × Json)
  | [] => []
  | (k, Json.obj kvs) :: rest => flattenSub (pre ++ "." ++ k) kvs ++ flattenSub pre rest
  | (k, v) :: rest => (pre ++ "." ++ k, v) :: flattenSub pre rest

/-- `nested_to_record` at the top level of one record: keys with non-dict
values stay in place under their own name; each dict-valued key is removed
and its flattening appended, in key order. -/
def nestedToRecord (kvs : List (String × Json)) : List (String × Json) :=
  kvs.filter (fun kv => !kv.2.isObj) ++
    (kvs.filter (fun kv => kv.2.isObj)).flatMap
      (fun kv => flattenSub kv.1 (match kv.2 with | .obj sub => sub | _ => []))

/-- Column set of a data frame built from a list of flat records: union of
the record keys in order of first appearance. -/
def unionKeys (recs : List (List (String × Json))) : List String :=
  (recs.flatMap (fun r => r.map Prod.fst)).eraseDups

/-- The row a flat record contributes, one cell per column; a key the
record lacks yields a missing value. -/
def rowFor (cols : List String) (rec : List (String × Json)) : List Json :=
  cols.map (fun c => ((rec.find? (fun kv => kv.1 = c)).map Prod.snd).getD Json.null)

/-- `DataFrame(list-of-flat-records)`. -/
def recordsToDataFrame (recs : List (List (String × Json))) : DataFrame :=
  ⟨unionKeys recs, recs.map (rowFor (unionKeys recs))⟩

/-- `pandas.json_normalize`: an empty list gives an empty frame; a dict is
treated as a one-element list; a list of dicts is flattened record by
record; anything else raises. -/
def json_normalize : Json → Except String DataFrame
  | Json.arr xs =>
    if xs.isEmpty then .ok ⟨[], []⟩
    else
      match allObjEntries xs with
      | some recs => .ok (recordsToDataFrame (recs.map nestedToRecord))
      | none => .error "AttributeError"
  | Json.obj kvs => .ok (recordsToDataFrame [nestedToRecord kvs])
  | _ => .error "NotImplementedError"

/-- One sheet of the output workbook. -/
structure Sheet where
  name : String
  table : DataFrame

/-- The unhandled errors a run can die with. -/
inductive RunError where
  /-- `json.load` failed on a present `nuget-licenses.json`. -/
  | jsonParseError : RunError
  /-- `pd.read_csv` failed on a present `rush-dependencies.csv`. -/
  | csvParseError : RunError
  /-- `pd.json_normalize` rejected the loaded JSON value. -/
  | normalizeFailed (msg : String) : RunError
  /-- `pd.ExcelWriter` could not open the output path (directory missing). -/
  | writerFileNotFound : RunError
  /-- Saving a workbook with no visible sheet (`openpyxl` `IndexError`). -/
  | noVisibleSheet : RunError
deriving DecidableEq

/-- Lines 16–20 of the script: load the NuGet JSON, substituting `[]`
when the file is missing (`FileNotFoundError` is also what reaching into a
non-existent directory raises). -/
def readNugetData (env : Env) : Except RunError Json :=
  match (if env.outputDirExists then env.nugetFile else .absent) with
  | .absent => .ok (Json.arr [])
  | .malformed => .error .jsonParseError
  | .parsed j => .ok j

/-- Lines 22–25 of the script: read the Rush CSV, substituting an empty
data frame when the file is missing. -/
def readRushData (env : Env) : Except RunError DataFrame :=
  match (if env.outputDirExists then env.rushFile else .absent) with
  | .absent => .ok ⟨[], []⟩
  | .malformed => .error .csvParseError
  | .parsed c => .ok (csvToDataFrame c)

/-- Lines 28–30: the NuGet sheet written when `nuget_data` is truthy. -/
def nugetSheetList (nuget_data : Json) : Except RunError (List Sheet) :=
  if nuget_data.truthy then
    match json_normalize nuget_data with
    | .ok df => .ok [⟨"NuGet Packages", df⟩]
    | .error e => .error (.normalizeFailed e)
  else .ok []

/-- Lines 31–32: the Rush sheet written when `rush_data` is non-empty. -/
def rushSheetList (rush_data : DataFrame) : List Sheet :=
  if rush_data.isEmpty then [] else [⟨"Rush Dependencies", rush_data⟩]

/-- The whole `main` up to the workbook save: read the two inputs, open
the writer, write the sheets in order, and require at least one visible
sheet at save time. -/
def computeSheets (env : Env) : Except RunError (List Sheet) :=
  match readNugetData env with
  | .error e => .error e
  | .ok nuget_data =>
    match readRushData env with
    | .error e => .error e
    | .ok rush_data =>
      if env.outputDirExists then
        match nugetSheetList nuget_data with
        | .error e => .error e
        | .ok ns =>
          let sheets := ns ++ rushSheetList rush_data
          if sheets.isEmpty then .error .noVisibleSheet else .ok sheets
      else .error .writerFileNotFound

/-- The saved workbook: its sheets in written order, plus the volatile
document metadata (creation timestamp) openpyxl stamps into the file. -/
structure XlsxFile where
  sheets : List Sheet
  createdAt : Nat

/-- A successful run's observable outcome: the saved workbook and the
printed confirmation line. -/
structure RunResult where
  file : XlsxFile
  message : String

/-- The hardcoded output directory (line 14). -/
def outputDir : String := "./license-reports"

/-- The confirmation line printed on success (line 34). -/
def confirmationMessage : String :=
  s!"Excel report generated at {outputDir}/license-report.xlsx"

/-- The script's `main`, parametrised by the wall-clock instant `now` at
which the workbook is saved (it enters only the volatile metadata). -/
def generateReport (env : Env) (now : Nat) : Except RunError RunResult :=
  match computeSheets env with
  | .error e => .error e
  | .ok sheets => .ok ⟨⟨sheets, now⟩, confirmationMessage⟩

/-- Process exit status: 0 on success, non-zero on an unhandled error. -/
def exitCode (r : Except RunError RunResult) : Nat :=
  match r with
  | .ok _ => 0
  | .error _ => 1

/-! ## Spec-side definitions for the flattening claim

`leafPaths`/`leafPathsTop` describe, in the spec's terms, the nested key
paths of a record ("nested keys become dotted/prefixed column names"); the
theorems below relate them to the column names `nested_to_record`
actually produces. -/

/-- Spec-side: dotted concatenation of the components of a key path. -/
def dotted : List String → String
  | [] => ""
  | k :: rest => rest.foldl (fun a b => a ++ "." ++ b) k

/-- Spec-side: the key paths of a record below the top level, each path
listing the keys from the outermost component to the leaf. -/
def leafPaths : List (String × Json) → List (List String)
  | [] => []
  | (k, Json.obj kvs) :: rest => (leafPaths kvs).map (fun p => k :: p) ++ leafPaths rest
  | (k, _) :: rest => [k] :: leafPaths rest

/-- Spec-side: the key paths of a record in the order `nested_to_record`
emits them (top-level non-dict keys in place, dict subtrees appended). -/
def leafPathsTop (kvs : List (String × Json)) : List (List String) :=
  (kvs.filter (fun kv => !kv.2.isObj)).map (fun kv => [kv.1]) ++
    (kvs.filter (fun kv => kv.2.isObj)).flatMap
      (fun kv => (leafPaths (match kv.2 with | .obj sub => sub | _ => [])).map (fun p => kv.1 :: p))

/-! ## Helper lemmas -/

theorem flattenSub_keys (pre : String) (kvs : List (String × Json)) :
    (flattenSub pre kvs).map Prod.fst
      = (leafPaths kvs).map (fun p => p.foldl (fun a b => a ++ "." ++ b) pre) := by
  induction pre, kvs using flattenSub.induct with
  | case1 pre => simp [flattenSub, leafPaths]
  | case2 pre k kvs rest ih1 ih2 =>
      simp [flattenSub, leafPaths, ih1, ih2, List.map_map, Function.comp]
  | case3 pre k v rest hv ih =>
      cases v <;> first
        | exact absurd rfl (hv _)
        | simp [flattenSub, leafPaths, ih]

theorem nestedToRecord_keys (kvs : List (String × Json)) :
    (nestedToRecord kvs).map Prod.fst = (leafPathsTop kvs).map dotted := by
  unfold nestedToRecord leafPathsTop
  rw [List.map_append, List.map_append]
  have h2 : ∀ l : List (String × Json),
      (l.flatMap (fun kv =>
        flattenSub kv.1 (match kv.2 with | .obj sub => sub | _ => []))).map Prod.fst
      = ((l.flatMap (fun kv =>
          (leafPaths (match kv.2 with | .obj sub => sub | _ => [])).map
            (fun p => kv.1 :: p)))).map dotted := by
    intro l
    induction l with
    | nil => simp
    | cons kv rest ih =>
        simp only [List.flatMap_cons, List.map_append, ih, flattenSub_keys,
          List.map_map]
        congr 1
  rw [h2]
  congr 1
  rw [List.map_map]
  exact List.map_congr_left (fun kv _ => rfl)

theorem allObjEntries_map_obj (recs : List (List (String × Json))) :
    allObjEntries (recs.map Json.obj) = some recs := by
  induction recs with
  | nil => rfl
  | cons r rest ih => simp [allObjEntries, asObjEntries, ih]

theorem recordsToDataFrame_rows_length (recs : List (List (String × Json))) :
    (recordsToDataFrame recs).rows.length = recs.length := by
  simp [recordsToDataFrame]

theorem nugetSheetList_cases (j : Json) (ns : List Sheet)
    (h : nugetSheetList j = .ok ns) :
    ns = [] ∨ ∃ df, json_normalize j = .ok df ∧ ns = [⟨"NuGet Packages", df⟩] := by
  unfold nugetSheetList at h
  split at h
  · cases hj : json_normalize j with
    | ok df =>
        rw [hj] at h
        right
        exact ⟨df, rfl, by injection h with h; exact h.symm⟩
    | error e => rw [hj] at h; cases h
  · left
    injection h with h
    exact h.symm

theorem rushSheetList_cases (df : DataFrame) :
    rushSheetList df = [] ∨ rushSheetList df = [⟨"Rush Dependencies", df⟩] := by
  unfold rushSheetList
  split
  · exact Or.inl rfl
  · exact Or.inr rfl

theorem computeSheets_ok (env : Env) (sheets : List Sheet)
    (h : computeSheets env = .ok sheets) :
    env.outputDirExists = true ∧
      ∃ nuget_data rush_data ns,
        readNugetData env = .ok nuget_data ∧
        readRushData env = .ok rush_data ∧
        nugetSheetList nuget_data = .ok ns ∧
        sheets = ns ++ rushSheetList rush_data ∧
        sheets ≠ [] := by
  unfold computeSheets at h
  cases hn : readNugetData env with
  | error e => rw [hn] at h; cases h
  | ok nuget_data =>
    rw [hn] at h
    cases hr : readRushData env with
    | error e => rw [hr] at h; cases h
    | ok rush_data =>
      rw [hr] at h
      cases hd : env.outputDirExists with
      | false => rw [hd] at h; simp at h
      | true =>
        rw [hd] at h
        simp only [if_true] at h
        cases hs : nugetSheetList nuget_data with
        | error e => rw [hs] at h; cases h
        | ok ns =>
          rw [hs] at h
          simp only [] at h
          split at h
          · cases h
          · injection h with h
            rename_i hne
            exact ⟨rfl, nuget_data, rush_data, ns, rfl, rfl, hs, h.symm,
              by rw [← h]; simpa using hne⟩

theorem computeSheets_nuget_only (recs : List (List (String × Json)))
    (h : recs ≠ []) :
    computeSheets ⟨true, .parsed (.arr (recs.map Json.obj)), .absent⟩
      = .ok [⟨"NuGet Packages", recordsToDataFrame (recs.map nestedToRecord)⟩] := by
  obtain ⟨r, rs, rfl⟩ := List.exists_cons_of_ne_nil h
  simp [computeSheets, readNugetData, readRushData, nugetSheetList,
    rushSheetList, Json.truthy, json_normalize, allObjEntries, asObjEntries,
    allObjEntries_map_obj, DataFrame.isEmpty]

theorem computeSheets_rush_only (hs : List String) (rs : List (List String))
    (hhs : hs ≠ []) (hrs : rs ≠ []) :
    computeSheets ⟨true, .absent, .parsed ⟨hs, rs⟩⟩
      = .ok [⟨"Rush Dependencies", csvToDataFrame ⟨hs, rs⟩⟩] := by
  obtain ⟨c, cs, rfl⟩ := List.exists_cons_of_ne_nil hhs
  obtain ⟨r, rrs, rfl⟩ := List.exists_cons_of_ne_nil hrs
  simp [computeSheets, readNugetData, readRushData, nugetSheetList,
    rushSheetList, Json.truthy, csvToDataFrame, DataFrame.isEmpty]

theorem computeSheets_both (recs : List (List (String × Json)))
    (hs : List String) (rs : List (List String))
    (hrecs : recs ≠ []) (hhs : hs ≠ []) (hrs : rs ≠ []) :
    computeSheets ⟨true, .parsed (.arr (recs.map Json.obj)), .parsed ⟨hs, rs⟩⟩
      = .ok [⟨"NuGet Packages", recordsToDataFrame (recs.map nestedToRecord)⟩,
             ⟨"Rush Dependencies", csvToDataFrame ⟨hs, rs⟩⟩] := by
  obtain ⟨r0, rs0, rfl⟩ := List.exists_cons_of_ne_nil hrecs
  obtain ⟨c, cs, rfl⟩ := List.exists_cons_of_ne_nil hhs
  obtain ⟨r, rrs, rfl⟩ := List.exists_cons_of_ne_nil hrs
  simp [computeSheets, readNugetData, readRushData, nugetSheetList,
    rushSheetList, Json.truthy, json_normalize, allObjEntries, asObjEntries,
    allObjEntries_map_obj, csvToDataFrame, DataFrame.isEmpty]

theorem computeSheets_empty_inputs (env : Env)
    (hd : env.outputDirExists = true)
    (hn : env.nugetFile = .absent ∨ env.nugetFile = .parsed (.arr []))
    (hr : env.rushFile = .absent ∨ ∃ hs, env.rushFile = .parsed ⟨hs, []⟩) :
    computeSheets env = .error .noVisibleSheet := by
  obtain ⟨d, nf, rf⟩ := env
  simp only at hd
  subst hd
  rcases hr with h | ⟨hs, h⟩ <;> subst h <;>
    rcases hn with h | h <;> subst h <;>
      simp [computeSheets, readNugetData, readRushData, nugetSheetList,
        rushSheetList, Json.truthy, csvToDataFrame, DataFrame.isEmpty]

theorem computeSheets_obj (kvs : List (String × Json)) (h : kvs ≠ []) :
    computeSheets ⟨true, .parsed (.obj kvs), .absent⟩
      = .ok [⟨"NuGet Packages", recordsToDataFrame [nestedToRecord kvs]⟩] := by
  obtain ⟨kv, rest, rfl⟩ := List.exists_cons_of_ne_nil h
  simp [computeSheets, readNugetData, readRushData, nugetSheetList,
    rushSheetList, Json.truthy, json_normalize, DataFrame.isEmpty]

theorem generateReport_eq (env : Env) (now : Nat) :
    generateReport env now
      = (computeSheets env).map (fun sheets => ⟨⟨sheets, now⟩, confirmationMessage⟩) := by
  unfold generateReport
  cases computeSheets env <;> rfl

theorem readNugetData_error (env : Env) (e : RunError)
    (h : readNugetData env = .error e) :
    e = .jsonParseError ∧ env.outputDirExists = true ∧ env.nugetFile = .malformed := by
  unfold readNugetData at h
  cases hd : env.outputDirExists with
  | false => rw [hd] at h; cases h
  | true =>
    rw [hd] at h
    simp only [if_true] at h
    cases hf : env.nugetFile with
    | absent => rw [hf] at h; cases h
    | malformed =>
        rw [hf] at h
        injection h with h
        exact ⟨h.symm, rfl, rfl⟩
    | parsed a => rw [hf] at h; cases h

theorem readRushData_error (env : Env) (e : RunError)
    (h : readRushData env = .error e) :
    e = .csvParseError ∧ env.outputDirExists = true ∧ env.rushFile = .malformed := by
  unfold readRushData at h
  cases hd : env.outputDirExists with
  | false => rw [hd] at h; cases h
  | true =>
    rw [hd] at h
    simp only [if_true] at h
    cases hf : env.rushFile with
    | absent => rw [hf] at h; cases h
    | malformed =>
        rw [hf] at h
        injection h with h
        exact ⟨h.symm, rfl, rfl⟩
    | parsed a => rw [hf] at h; cases h

theorem nugetSheetList_error (j : Json) (e : RunError)
    (h : nugetSheetList j = .error e) :
    ∃ msg, e = .normalizeFailed msg ∧ json_normalize j = .error msg ∧ j.truthy = true := by
  unfold nugetSheetList at h
  split at h
  · cases hj : json_normalize j with
    | ok df => rw [hj] at h; cases h
    | error msg =>
        rw [hj] at h
        injection h with h
        exact ⟨msg, h.symm, rfl, by assumption⟩
  · cases h

theorem computeSheets_jsonParse (env : Env)
    (h : computeSheets env = .error .jsonParseError) :
    env.outputDirExists = true ∧ env.nugetFile = .malformed := by
  unfold computeSheets at h
  cases hn : readNugetData env with
  | error e =>
    rw [hn] at h
    injection h with h
    obtain ⟨-, hd, hm⟩ := readNugetData_error env e hn
    exact ⟨hd, hm⟩
  | ok nuget_data =>
    rw [hn] at h
    exfalso
    cases hr : readRushData env with
    | error e =>
      rw [hr] at h
      injection h with h
      obtain ⟨he, -, -⟩ := readRushData_error env e hr
      rw [he] at h
      cases h
    | ok rush_data =>
      rw [hr] at h
      cases hd : env.outputDirExists with
      | false => rw [hd] at h; simp at h
      | true =>
        rw [hd] at h
        simp only [if_true] at h
        cases hsl : nugetSheetList nuget_data with
        | error e =>
          rw [hsl] at h
          injection h with h
          obtain ⟨msg, he, -, -⟩ := nugetSheetList_error nuget_data e hsl
          rw [he] at h
          cases h
        | ok ns =>
          rw [hsl] at h
          simp only [] at h
          split at h <;> cases h

theorem computeSheets_csvParse (env : Env)
    (h : computeSheets env = .error .csvParseError) :
    env.outputDirExists = true ∧ env.rushFile = .malformed := by
  unfold computeSheets at h
  cases hn : readNugetData env with
  | error e =>
    rw [hn] at h
    injection h with h
    obtain ⟨he, -, -⟩ := readNugetData_error env e hn
    rw [he] at h
    cases h
  | ok nuget_data =>
    rw [hn] at h
    cases hr : readRushData env with
    | error e =>
      rw [hr] at h
      obtain ⟨-, hd, hm⟩ := readRushData_error env e hr
      exact ⟨hd, hm⟩
    | ok rush_data =>
      rw [hr] at h
      exfalso
      cases hd : env.outputDirExists with
      | false => rw [hd] at h; simp at h
      | true =>
        rw [hd] at h
        simp only [if_true] at h
        cases hsl : nugetSheetList nuget_data with
        | error e =>
          rw [hsl] at h
          injection h with h
          obtain ⟨msg, he, -, -⟩ := nugetSheetList_error nuget_data e hsl
          rw [he] at h
          cases h
        | ok ns =>
          rw [hsl] at h
          simp only [] at h
          split at h <;> cases h

theorem computeSheets_malformed_json (env : Env)
    (hd : env.outputDirExists = true) (hm : env.nugetFile = .malformed) :
    computeSheets env = .error .jsonParseError := by
  simp [computeSheets, readNugetData, hd, hm]

theorem computeSheets_malformed_csv (env : Env)
    (hd : env.outputDirExists = true) (hnm : env.nugetFile ≠ .malformed)
    (hm : env.rushFile = .malformed) :
    computeSheets env = .error .csvParseError := by
  obtain ⟨d, nf, rf⟩ := env
  simp only at hd hm hnm
  subst hd
  subst hm
  cases nf with
  | absent => simp [computeSheets, readNugetData, readRushData]
  | malformed => exact absurd rfl hnm
  | parsed j => simp [computeSheets, readNugetData, readRushData]

theorem generateReport_ok (env : Env) (now : Nat) (r : RunResult)
    (h : generateReport env now = .ok r) :
    ∃ sheets, computeSheets env = .ok sheets
      ∧ r = ⟨⟨sheets, now⟩, confirmationMessage⟩ := by
  rw [generateReport_eq] at h
  cases hcs : computeSheets env with
  | error e => rw [hcs] at h; cases h
  | ok sheets =>
      rw [hcs] at h
      simp only [Except.map] at h
      injection h with h
      exact ⟨sheets, rfl, h.symm⟩

theorem nuget_empty_no_sheet (env : Env) (now : Nat) (r : RunResult)
    (hempty : env.nugetFile = .absent ∨ env.nugetFile = .parsed (.arr []))
    (hok : generateReport env now = .ok r) :
    ∀ s ∈ r.file.sheets, s.name ≠ "NuGet Packages" := by
  obtain ⟨sheets, hcs, rfl⟩ := generateReport_ok env now r hok
  obtain ⟨hd, nuget_data, rush_data, ns, hn, hr, hsl, hsplit, -⟩ :=
    computeSheets_ok env sheets hcs
  have hnd : nuget_data = Json.arr [] := by
    unfold readNugetData at hn
    rw [hd] at hn
    simp only [if_true] at hn
    rcases hempty with h | h <;> rw [h] at hn <;> injection hn with hn <;>
      exact hn.symm
  subst hnd
  have hns : ns = [] := by
    unfold nugetSheetList at hsl
    simp only [Json.truthy, List.isEmpty_nil, Bool.not_true, Bool.false_eq_true,
      if_false] at hsl
    injection hsl with hsl
    exact hsl.symm
  subst hns
  subst hsplit
  intro s hs
  simp only [List.nil_append] at hs
  rcases rushSheetList_cases rush_data with h | h <;> rw [h] at hs
  · cases hs
  · simp only [List.mem_singleton] at hs
    subst hs
    simp

theorem rush_empty_no_sheet (env : Env) (now : Nat) (r : RunResult)
    (hempty : env.rushFile = .absent ∨ ∃ h0, env.rushFile = .parsed ⟨h0, []⟩)
    (hok : generateReport env now = .ok r) :
    ∀ s ∈ r.file.sheets, s.name ≠ "Rush Dependencies" := by
  obtain ⟨sheets, hcs, rfl⟩ := generateReport_ok env now r hok
  obtain ⟨hd, nuget_data, rush_data, ns, hn, hr, hsl, hsplit, -⟩ :=
    computeSheets_ok env sheets hcs
  have hrd : rush_data.rows = [] := by
    unfold readRushData at hr
    rw [hd] at hr
    simp only [if_true] at hr
    rcases hempty with h | ⟨h0, h⟩ <;>
      (rw [h] at hr; injection hr with hr; exact hr ▸ rfl)
  have hrs : rushSheetList rush_data = [] := by
    unfold rushSheetList
    have he : rush_data.isEmpty = true := by
      simp [DataFrame.isEmpty, hrd]
    rw [he]
    simp
  rw [hrs] at hsplit
  subst hsplit
  intro s hs
  simp only [List.append_nil] at hs
  rcases nugetSheetList_cases _ _ hsl with h | ⟨df, -, h⟩ <;> rw [h] at hs
  · cases hs
  · simp only [List.mem_singleton] at hs
    subst hs
    simp

/-! ## Claim theorems -/

/-- C1 counterexample: with both input files absent, the run does NOT write
a zero-sheet workbook, exit 0 and print the confirmation — no sheet is ever
written, so saving the workbook fails with the no-visible-sheet error and
the process exits non-zero with no confirmation message. -/
theorem c1_both_absent_counterexample :
    generateReport ⟨true, .absent, .absent⟩ 0 = .error .noVisibleSheet
    ∧ exitCode (generateReport ⟨true, .absent, .absent⟩ 0) ≠ 0 :=
  ⟨rfl, by decide⟩

/-- C1 (amended): for every run in which the output directory exists and
both inputs are absent or empty (empty JSON array; CSV with header only),
no sheet is written and closing the workbook writer fails (a workbook with
no visible sheet cannot be saved), so the run terminates with an unhandled
error: no zero-sheet workbook is produced, the exit status is non-zero and
no confirmation message is printed. -/
theorem c1_empty_inputs_run_fails (env : Env) (now : Nat)
    (hd : env.outputDirExists = true)
    (hn : env.nugetFile = .absent ∨ env.nugetFile = .parsed (.arr []))
    (hr : env.rushFile = .absent ∨ ∃ h0, env.rushFile = .parsed ⟨h0, []⟩) :
    generateReport env now = .error .noVisibleSheet
    ∧ exitCode (generateReport env now) = 1 := by
  have h := computeSheets_empty_inputs env hd hn hr
  rw [generateReport_eq, h]
  exact ⟨rfl, rfl⟩

/-- C1 witness: the amended claim at a concrete input (empty JSON array,
header-only CSV). -/
theorem c1_empty_inputs_run_fails_witness :
    generateReport ⟨true, .parsed (.arr []), .parsed ⟨["name", "version"], []⟩⟩ 7
        = .error .noVisibleSheet
    ∧ exitCode
        (generateReport ⟨true, .parsed (.arr []), .parsed ⟨["name", "version"], []⟩⟩ 7)
        = 1 :=
  c1_empty_inputs_run_fails ⟨true, .parsed (.arr []), .parsed ⟨["name", "version"], []⟩⟩
    7 rfl (Or.inr rfl) (Or.inr ⟨["name", "version"], rfl⟩)

/-- C4 counterexample: a run whose `nuget-licenses.json` does not exist can
still fail (here: the present CSV has no data rows, so nothing is written
and the save step dies), refuting "generate_report does not fail" as a
universal statement about runs with a missing input. -/
theorem c4_missing_input_run_fails_counterexample :
    generateReport ⟨true, .absent, .parsed ⟨["name", "version"], []⟩⟩ 0
      = .error .noVisibleSheet := rfl

/-- C4 (amended): a missing input file never itself causes a failure: it is
substituted with an empty dataset (empty record list / empty data frame)
and execution continues past the read phase — in particular the run never
terminates with that file's parse error.  The run as a whole may still fail
for other reasons (e.g. the zero-sheet save failure). -/
theorem c4_missing_input_recovered (env : Env) (now : Nat) :
    (env.nugetFile = .absent → readNugetData env = .ok (Json.arr []))
    ∧ (env.rushFile = .absent → readRushData env = .ok ⟨[], []⟩)
    ∧ (env.nugetFile = .absent → generateReport env now ≠ .error .jsonParseError)
    ∧ (env.rushFile = .absent → generateReport env now ≠ .error .csvParseError) := by
  refine ⟨?_, ?_, ?_, ?_⟩
  · intro h
    unfold readNugetData
    rw [h, ite_self]
  · intro h
    unfold readRushData
    rw [h, ite_self]
  · intro h hcontra
    rw [generateReport_eq] at hcontra
    cases hcs : computeSheets env with
    | error e =>
        rw [hcs] at hcontra
        simp only [Except.map] at hcontra
        injection hcontra with he
        subst he
        obtain ⟨-, hm⟩ := computeSheets_jsonParse env hcs
        rw [h] at hm
        cases hm
    | ok s =>
        rw [hcs] at hcontra
        simp only [Except.map] at hcontra
        cases hcontra
  · intro h hcontra
    rw [generateReport_eq] at hcontra
    cases hcs : computeSheets env with
    | error e =>
        rw [hcs] at hcontra
        simp only [Except.map] at hcontra
        injection hcontra with he
        subst he
        obtain ⟨-, hm⟩ := computeSheets_csvParse env hcs
        rw [h] at hm
        cases hm
    | ok s =>
        rw [hcs] at hcontra
        simp only [Except.map] at hcontra
        cases hcontra

/-- C4 witness: the amended claim at a concrete input. -/
theorem c4_missing_input_recovered_witness :
    readNugetData ⟨true, .absent, .absent⟩ = .ok (Json.arr [])
    ∧ readRushData ⟨true, .absent, .absent⟩ = .ok ⟨[], []⟩
    ∧ generateReport ⟨true, .absent, .absent⟩ 2 ≠ .error .jsonParseError
    ∧ generateReport ⟨true, .absent, .absent⟩ 2 ≠ .error .csvParseError :=
  ⟨(c4_missing_input_recovered ⟨true, .absent, .absent⟩ 2).1 rfl,
   (c4_missing_input_recovered ⟨true, .absent, .absent⟩ 2).2.1 rfl,
   (c4_missing_input_recovered ⟨true, .absent, .absent⟩ 2).2.2.1 rfl,
   (c4_missing_input_recovered ⟨true, .absent, .absent⟩ 2).2.2.2 rfl⟩

/-- C5: a present but malformed input file is fatal: the parse error is not
caught, the run terminates with it as an unhandled error, and no workbook
is written by the run (the error occurs before the writer is even opened;
a malformed NuGet file dies first, a malformed Rush file dies second). -/
theorem c5_malformed_input_fatal (env : Env) (now : Nat)
    (hd : env.outputDirExists = true) :
    (env.nugetFile = .malformed → generateReport env now = .error .jsonParseError)
    ∧ (env.nugetFile ≠ .malformed → env.rushFile = .malformed →
        generateReport env now = .error .csvParseError) := by
  constructor
  · intro hm
    rw [generateReport_eq, computeSheets_malformed_json env hd hm]
    rfl
  · intro hnm hm
    rw [generateReport_eq, computeSheets_malformed_csv env hd hnm hm]
    rfl

/-- C5 witness: both malformed-input cases at concrete inputs. -/
theorem c5_malformed_input_fatal_witness :
    generateReport ⟨true, .malformed, .absent⟩ 0 = .error .jsonParseError
    ∧ generateReport ⟨true, .absent, .malformed⟩ 3 = .error .csvParseError :=
  ⟨(c5_malformed_input_fatal ⟨true, .malformed, .absent⟩ 0 rfl).1 rfl,
   (c5_malformed_input_fatal ⟨true, .absent, .malformed⟩ 3 rfl).2
     (fun hcon => FileContent.noConfusion hcon) rfl⟩

/-- C10: when `./license-reports` itself does not exist, both input reads
are still recovered as empty datasets (the `FileNotFoundError` is caught
for both), but constructing the workbook writer for the output path then
raises an unhandled file-not-found error, so the run fails fatally. -/
theorem c10_missing_dir_fatal_after_recovered_reads (env : Env) (now : Nat)
    (hd : env.outputDirExists = false) :
    readNugetData env = .ok (Json.arr [])
    ∧ readRushData env = .ok ⟨[], []⟩
    ∧ generateReport env now = .error .writerFileNotFound := by
  refine ⟨?_, ?_, ?_⟩
  · unfold readNugetData
    rw [hd]
    rfl
  · unfold readRushData
    rw [hd]
    rfl
  · rw [generateReport_eq]
    have h : computeSheets env = .error .writerFileNotFound := by
      simp [computeSheets, readNugetData, readRushData, hd]
    rw [h]
    rfl

/-- C10 witness: a concrete run with no output directory; even unparseable
file contents are irrelevant because the directory is gone. -/
theorem c10_missing_dir_witness :
    readNugetData ⟨false, .malformed, .malformed⟩ = .ok (Json.arr [])
    ∧ readRushData ⟨false, .malformed, .malformed⟩ = .ok ⟨[], []⟩
    ∧ generateReport ⟨false, .malformed, .malformed⟩ 1 = .error .writerFileNotFound :=
  c10_missing_dir_fatal_after_recovered_reads ⟨false, .malformed, .malformed⟩ 1 rfl

/-- C2: a run on a present, non-empty NuGet array of n records (records are
JSON objects; only the NuGet file present) yields a workbook whose single
sheet is named exactly "NuGet Packages" with data row count n (no row
index); and no successful run whose NuGet input is absent or an empty
array has a "NuGet Packages" sheet. -/
theorem c2_nuget_sheet_row_count
    (recs : List (List (String × Json))) (now : Nat)
    (env : Env) (now2 : Nat) (r : RunResult)
    (hne : recs ≠ [])
    (hempty : env.nugetFile = .absent ∨ env.nugetFile = .parsed (.arr []))
    (hok : generateReport env now2 = .ok r) :
    (∃ df, generateReport ⟨true, .parsed (.arr (recs.map Json.obj)), .absent⟩ now
        = .ok ⟨⟨[⟨"NuGet Packages", df⟩], now⟩, confirmationMessage⟩
      ∧ df.rows.length = recs.length)
    ∧ ∀ s ∈ r.file.sheets, s.name ≠ "NuGet Packages" := by
  constructor
  · refine ⟨recordsToDataFrame (recs.map nestedToRecord), ?_, ?_⟩
    · rw [generateReport_eq, computeSheets_nuget_only recs hne]
      rfl
    · rw [recordsToDataFrame_rows_length, List.length_map]
  · exact nuget_empty_no_sheet env now2 r hempty hok

/-- C2 witness: the spec's example record set at a concrete input, plus a
concrete successful NuGet-empty run with no "NuGet Packages" sheet. -/
theorem c2_nuget_sheet_row_count_witness :
    (∃ df, generateReport
        ⟨true,
         .parsed (.arr ([[("name", Json.str "A"), ("license", Json.str "MIT")]].map Json.obj)),
         .absent⟩ 0
        = .ok ⟨⟨[⟨"NuGet Packages", df⟩], 0⟩, confirmationMessage⟩
      ∧ df.rows.length = [[("name", Json.str "A"), ("license", Json.str "MIT")]].length)
    ∧ ∀ s ∈ (RunResult.mk
        ⟨[⟨"Rush Dependencies", csvToDataFrame ⟨["name"], [["foo"]]⟩⟩], 1⟩
        confirmationMessage).file.sheets,
        s.name ≠ "NuGet Packages" :=
  c2_nuget_sheet_row_count
    [[("name", Json.str "A"), ("license", Json.str "MIT")]] 0
    ⟨true, .absent, .parsed ⟨["name"], [["foo"]]⟩⟩ 1
    (RunResult.mk ⟨[⟨"Rush Dependencies", csvToDataFrame ⟨["name"], [["foo"]]⟩⟩], 1⟩
      confirmationMessage)
    (List.cons_ne_nil _ _) (Or.inl rfl) rfl

/-- C3: a run on a present Rush CSV with a header and n > 0 data rows (only
the Rush file present) yields a workbook whose single sheet is named
exactly "Rush Dependencies" with data row count n (header excluded, no row
index); and no successful run whose Rush input is absent or header-only has
a "Rush Dependencies" sheet. -/
theorem c3_rush_sheet_row_count
    (hs0 : List String) (rs : List (List String)) (now : Nat)
    (env : Env) (now2 : Nat) (r : RunResult)
    (hhs : hs0 ≠ []) (hrs : rs ≠ [])
    (hempty : env.rushFile = .absent ∨ ∃ h0, env.rushFile = .parsed ⟨h0, []⟩)
    (hok : generateReport env now2 = .ok r) :
    (generateReport ⟨true, .absent, .parsed ⟨hs0, rs⟩⟩ now
        = .ok ⟨⟨[⟨"Rush Dependencies", csvToDataFrame ⟨hs0, rs⟩⟩], now⟩,
               confirmationMessage⟩
      ∧ (csvToDataFrame ⟨hs0, rs⟩).rows.length = rs.length)
    ∧ ∀ s ∈ r.file.sheets, s.name ≠ "Rush Dependencies" := by
  constructor
  · constructor
    · rw [generateReport_eq, computeSheets_rush_only hs0 rs hhs hrs]
      rfl
    · simp [csvToDataFrame]
  · exact rush_empty_no_sheet env now2 r hempty hok

/-- C3 witness: the spec's example CSV at a concrete input, plus a concrete
successful Rush-empty run with no "Rush Dependencies" sheet. -/
theorem c3_rush_sheet_row_count_witness :
    (generateReport ⟨true, .absent, .parsed ⟨["name", "version"], [["foo", "1.0.0"]]⟩⟩ 0
        = .ok ⟨⟨[⟨"Rush Dependencies",
                  csvToDataFrame ⟨["name", "version"], [["foo", "1.0.0"]]⟩⟩], 0⟩,
               confirmationMessage⟩
      ∧ (csvToDataFrame ⟨["name", "version"], [["foo", "1.0.0"]]⟩).rows.length
          = [["foo", "1.0.0"]].length)
    ∧ ∀ s ∈ (RunResult.mk
        ⟨[⟨"NuGet Packages", recordsToDataFrame [nestedToRecord [("a", Json.num 1)]]⟩], 4⟩
        confirmationMessage).file.sheets,
        s.name ≠ "Rush Dependencies" :=
  c3_rush_sheet_row_count ["name", "version"] [["foo", "1.0.0"]] 0
    ⟨true, .parsed (.arr [.obj [("a", Json.num 1)]]), .absent⟩ 4
    (RunResult.mk
      ⟨[⟨"NuGet Packages", recordsToDataFrame [nestedToRecord [("a", Json.num 1)]]⟩], 4⟩
      confirmationMessage)
    (List.cons_ne_nil _ _) (List.cons_ne_nil _ _) (Or.inl rfl) rfl

/-- C8 counterexample: a truthy parsed JSON value that is neither an object
nor an array of objects — here the non-empty string "x" — is NOT normalized
and written as a sheet: the run dies with the normalizer's unhandled error. -/
theorem c8_truthy_string_rejected_counterexample :
    (Json.str "x").truthy = true
    ∧ generateReport ⟨true, .parsed (.str "x"), .absent⟩ 0
        = .error (.normalizeFailed "NotImplementedError") :=
  ⟨by decide, rfl⟩

/-- C8 (amended): the "JSON array of records" shape is indeed not validated
— a present non-array value that is a truthy (non-empty) JSON object is
accepted and normalized to a one-row "NuGet Packages" sheet — but not every
truthy parsed value is accepted: truthy non-object values (strings,
numbers, booleans, arrays containing non-objects) make the normalizer raise
an unhandled error instead of being written. -/
theorem c8_truthy_object_one_row_sheet (kvs : List (String × Json)) (now : Nat)
    (h : kvs ≠ []) :
    generateReport ⟨true, .parsed (.obj kvs), .absent⟩ now
      = .ok ⟨⟨[⟨"NuGet Packages", recordsToDataFrame [nestedToRecord kvs]⟩], now⟩,
             confirmationMessage⟩
    ∧ (recordsToDataFrame [nestedToRecord kvs]).rows.length = 1 := by
  constructor
  · rw [generateReport_eq, computeSheets_obj kvs h]
    rfl
  · rw [recordsToDataFrame_rows_length]
    rfl

/-- C8 witness: a concrete single-object NuGet input yielding a one-row
sheet. -/
theorem c8_truthy_object_one_row_sheet_witness :
    generateReport ⟨true, .parsed (.obj [("name", Json.str "A")]), .absent⟩ 3
      = .ok ⟨⟨[⟨"NuGet Packages",
               recordsToDataFrame [nestedToRecord [("name", Json.str "A")]]⟩], 3⟩,
             confirmationMessage⟩
    ∧ (recordsToDataFrame [nestedToRecord [("name", Json.str "A")]]).rows.length = 1 :=
  c8_truthy_object_one_row_sheet [("name", Json.str "A")] 3 (List.cons_ne_nil _ _)

/-- C9: when both inputs are present and non-empty the NuGet sheet is
written before the Rush sheet, so "NuGet Packages" is the first sheet; and
in any successful run whose workbook has two sheets, the sheet names in
order are exactly ["NuGet Packages", "Rush Dependencies"]. -/
theorem c9_nuget_sheet_first
    (recs : List (List (String × Json))) (hs0 : List String)
    (rs : List (List String)) (now : Nat)
    (env : Env) (now2 : Nat) (r : RunResult)
    (hrecs : recs ≠ []) (hhs : hs0 ≠ []) (hrs : rs ≠ [])
    (hok : generateReport env now2 = .ok r) (h2 : r.file.sheets.length = 2) :
    generateReport ⟨true, .parsed (.arr (recs.map Json.obj)), .parsed ⟨hs0, rs⟩⟩ now
      = .ok ⟨⟨[⟨"NuGet Packages", recordsToDataFrame (recs.map nestedToRecord)⟩,
              ⟨"Rush Dependencies", csvToDataFrame ⟨hs0, rs⟩⟩], now⟩,
             confirmationMessage⟩
    ∧ r.file.sheets.map Sheet.name = ["NuGet Packages", "Rush Dependencies"] := by
  constructor
  · rw [generateReport_eq, computeSheets_both recs hs0 rs hrecs hhs hrs]
    rfl
  · obtain ⟨sheets, hcs, rfl⟩ := generateReport_ok env now2 r hok
    obtain ⟨hd, nuget_data, rush_data, ns, hn, hr, hsl, hsplit, -⟩ :=
      computeSheets_ok env sheets hcs
    subst hsplit
    rcases nugetSheetList_cases _ _ hsl with hcase | ⟨df, -, hcase⟩ <;> subst hcase <;>
      rcases rushSheetList_cases rush_data with hcase2 | hcase2 <;>
        rw [hcase2] at h2 ⊢ <;> simp_all

/-- C9 witness: a concrete run with both inputs non-empty, whose workbook
has the NuGet sheet first. -/
theorem c9_nuget_sheet_first_witness :
    generateReport
        ⟨true, .parsed (.arr ([[("a", Json.num 1)]].map Json.obj)),
         .parsed ⟨["name"], [["foo"]]⟩⟩ 0
      = .ok ⟨⟨[⟨"NuGet Packages", recordsToDataFrame ([[("a", Json.num 1)]].map nestedToRecord)⟩,
              ⟨"Rush Dependencies", csvToDataFrame ⟨["name"], [["foo"]]⟩⟩], 0⟩,
             confirmationMessage⟩
    ∧ (RunResult.mk
        ⟨[⟨"NuGet Packages", recordsToDataFrame ([[("a", Json.num 1)]].map nestedToRecord)⟩,
          ⟨"Rush Dependencies", csvToDataFrame ⟨["name"], [["foo"]]⟩⟩], 1⟩
        confirmationMessage).file.sheets.map Sheet.name
        = ["NuGet Packages", "Rush Dependencies"] :=
  c9_nuget_sheet_first [[("a", Json.num 1)]] ["name"] [["foo"]] 0
    ⟨true, .parsed (.arr ([[("a", Json.num 1)]].map Json.obj)),
     .parsed ⟨["name"], [["foo"]]⟩⟩ 1
    (RunResult.mk
      ⟨[⟨"NuGet Packages", recordsToDataFrame ([[("a", Json.num 1)]].map nestedToRecord)⟩,
        ⟨"Rush Dependencies", csvToDataFrame ⟨["name"], [["foo"]]⟩⟩], 1⟩
      confirmationMessage)
    (List.cons_ne_nil _ _) (List.cons_ne_nil _ _) (List.cons_ne_nil _ _) rfl rfl

/-- C6: flattening a non-empty set of (possibly nested) NuGet records maps
each record to exactly one output row (`json_normalize` succeeds on any
list of objects and its row count equals the record count), and the flat
column names a record contributes are exactly the dotted concatenations of
its nested key paths. -/
theorem c6_flatten_rows_and_dotted_columns
    (recs : List (List (String × Json))) (kvs : List (String × Json)) :
    (∃ df, json_normalize (Json.arr (recs.map Json.obj)) = .ok df
      ∧ df.rows.length = recs.length)
    ∧ (nestedToRecord kvs).map Prod.fst = (leafPathsTop kvs).map dotted := by
  constructor
  · cases recs with
    | nil => exact ⟨⟨[], []⟩, rfl, rfl⟩
    | cons r rest =>
        refine ⟨recordsToDataFrame ((r :: rest).map nestedToRecord), ?_, ?_⟩
        · have h := allObjEntries_map_obj (r :: rest)
          simp only [List.map_cons] at h
          simp [json_normalize, h]
        · rw [recordsToDataFrame_rows_length, List.length_map]
  · exact nestedToRecord_keys kvs

/-- C7: report generation is deterministic in the inputs: two runs on the
same environment produce workbooks with identical content (same sheets with
the same names, tables and order, and the same printed message), even
though the saved files embed the save instant and so need not be
byte-identical. -/
theorem c7_deterministic_content (env : Env) (t1 t2 : Nat) :
    (generateReport env t1).map (fun r => r.file.sheets)
      = (generateReport env t2).map (fun r => r.file.sheets)
    ∧ (generateReport env t1).map (fun r => r.message)
      = (generateReport env t2).map (fun r => r.message) := by
  rw [generateReport_eq env t1, generateReport_eq env t2]
  cases computeSheets env <;> exact ⟨rfl, rfl⟩
